import Mathlib

/-
Verification of the ESPHome solenoid switch component
(components/solenoid/switch/__init__.py): the configuration validation
pipeline (CONFIG_SCHEMA with its field validators and the two custom
cross-field validators), the code-generation step (to_code), and the
DC-latching pulse policy of the runtime driver described by the design
document.
-/

set_option maxRecDepth 4000

deriving instance DecidableEq for Except

namespace Solenoid

/-- Output component classes referenced by `cv.use_id`:
`output.FloatOutput` (modulated) and `output.BinaryOutput`.
In ESPHome, `FloatOutput` is a subclass of `BinaryOutput`. -/
inductive OutputClass
  | FloatOutput
  | BinaryOutput
  deriving DecidableEq, Repr

/-- Concrete kind of an output component an id refers to. -/
inductive OutputKind
  | float
  | binary
  deriving DecidableEq, Repr

/-- Subclass check used by `cv.use_id`: a `FloatOutput` is also a
`BinaryOutput`, but not conversely. -/
def OutputKind.isA : OutputKind → OutputClass → Bool
  | .float, _ => true
  | .binary, .BinaryOutput => true
  | .binary, .FloatOutput => false

/-- A reference to an output component: its id and the kind of component
that id resolves to. -/
structure OutputRef where
  id : Nat
  kind : OutputKind
  deriving DecidableEq, Repr

/-- The `SolenoidType` enum from the codegen namespace. -/
inductive SolenoidType
  | SOLENOID_TYPE_DC_LATCHING
  | SOLENOID_TYPE_AC
  | SOLENOID_TYPE_DC
  deriving DecidableEq, Repr

/-- The `SOLENOID_TYPE_OPTIONS` mapping from user strings to enum values. -/
def SOLENOID_TYPE_OPTIONS : List (String × SolenoidType) :=
  [("DC_LATCHING", .SOLENOID_TYPE_DC_LATCHING),
   ("AC", .SOLENOID_TYPE_AC),
   ("DC", .SOLENOID_TYPE_DC)]

/-- Characterwise uppercase, modelling the `upper=True` normalization of
`cv.enum` (Python str.upper), defined structurally so it evaluates. -/
def pyUpper (s : String) : String := String.mk (s.data.map Char.toUpper)

/-- Raw user configuration before schema validation: every key may be
absent. Numeric time fields are in milliseconds. Percentage fields are
represented throughout in percent units: the value after the
`cv.percentage` string parse, times 100 (so `"95%"` is the rational 95,
and the Python fraction is this value divided by 100). -/
structure RawConfig where
  pin_a : Option OutputRef
  pin_b : Option OutputRef
  h_bridge_enable_pin : Option OutputRef
  energise_duration_ms : Option Int
  dc_latch_redo_count : Option Int
  dc_latch_redo_interval_ms : Option Int
  energise_power_percent : Option Rat
  hold_power_percent : Option Rat
  solenoid_type : Option String
  brake_is_high : Option Bool
  inverted : Option Bool
  using_half_bridge : Option Bool
  interlock : Option (List Nat)
  interlock_wait_time : Option Int
  deriving DecidableEq, Repr

/-- Configuration after schema validation: defaults filled in, ranges
checked, ids resolved. -/
structure Config where
  pin_a : Nat
  pin_b : Option Nat
  h_bridge_enable_pin : Option Nat
  energise_duration_ms : Int
  dc_latch_redo_count : Int
  dc_latch_redo_interval_ms : Int
  energise_power_percent : Rat
  hold_power_percent : Rat
  solenoid_type : SolenoidType
  brake_is_high : Bool
  inverted : Bool
  using_half_bridge : Bool
  interlock : Option (List Nat)
  interlock_wait_time : Int
  deriving DecidableEq, Repr

/-- `cv.Required(...): cv.use_id(cls)`: the key must be present and refer
to a component of (a subclass of) the requested class. -/
def requiredUseId (cls : OutputClass) : Option OutputRef → Except String Nat
  | none => .error "required key not provided"
  | some r => if r.kind.isA cls then .ok r.id else .error "referenced id is not of the requested output class"

/-- `cv.Optional(...): cv.use_id(cls)`: the key may be absent; when
present it must refer to a component of the requested class. -/
def optionalUseId (cls : OutputClass) : Option OutputRef → Except String (Option Nat)
  | none => .ok none
  | some r => if r.kind.isA cls then .ok (some r.id) else .error "referenced id is not of the requested output class"

/-- `cv.int_range(min, max)`: accepts the value exactly when it lies in
the closed range. -/
def cv_int_range (lo hi v : Int) : Except String Int :=
  if lo ≤ v ∧ v ≤ hi then .ok v else .error "value out of range"

/-- `cv.percentage`: the parsed value must lie in [0, 1], i.e. in
[0, 100] in the percent units used here. -/
def cv_percentage (v : Rat) : Except String Rat :=
  if v > 100 then .error "Percentage must not be higher than 100 percent."
  else if v < 0 then .error "Percentage must not be negative."
  else .ok v

/-- `cv.boolean` on an already-boolean value. -/
def cv_boolean (b : Bool) : Except String Bool := .ok b

/-- `cv.positive_time_period_milliseconds`: a time period that must not
be negative. -/
def cv_positive_time_period_milliseconds (v : Int) : Except String Int :=
  if 0 ≤ v then .ok v else .error "Time period must not be negative."

/-- `cv.enum(SOLENOID_TYPE_OPTIONS, upper=True)`: uppercase the value and
look it up among the mapping keys. -/
def cv_enum_solenoid (o : Option String) : Except String SolenoidType :=
  match o with
  | none => .error "required key not provided"
  | some s =>
    match SOLENOID_TYPE_OPTIONS.lookup (pyUpper s) with
    | some t => .ok t
    | none => .error "Unknown value, valid options are DC_LATCHING, AC, DC."

/-- `cv.Required(key): validator`: the key must be present, then the
field validator is applied. -/
def required {α β : Type} (f : α → Except String β) : Option α → Except String β
  | none => .error "required key not provided"
  | some v => f v

/-- `cv.Optional(key, default=d): validator`: the default is substituted
for an absent key, then the field validator is applied. -/
def optionalWithDefault {α β : Type} (d : α) (f : α → Except String β) : Option α → Except String β
  | none => f d
  | some v => f v

/-- The field part of `CONFIG_SCHEMA`: each key validated as declared in
the schema dictionary, with the declared defaults. -/
def applySchema (raw : RawConfig) : Except String Config := do
  let pinA ← requiredUseId .FloatOutput raw.pin_a
  let pinB ← optionalUseId .BinaryOutput raw.pin_b
  let enablePin ← optionalUseId .BinaryOutput raw.h_bridge_enable_pin
  let dur ← required (cv_int_range 10 3000) raw.energise_duration_ms
  let redo ← optionalWithDefault 3 (cv_int_range 1 5) raw.dc_latch_redo_count
  let redoInterval ← optionalWithDefault 500 (cv_int_range 500 3000) raw.dc_latch_redo_interval_ms
  let epow ← optionalWithDefault (95 : Rat) cv_percentage raw.energise_power_percent
  let hpow ← optionalWithDefault (55 : Rat) cv_percentage raw.hold_power_percent
  let st ← cv_enum_solenoid raw.solenoid_type
  let brake ← required cv_boolean raw.brake_is_high
  let inv ← optionalWithDefault false cv_boolean raw.inverted
  let half ← optionalWithDefault false cv_boolean raw.using_half_bridge
  let wait ← optionalWithDefault 0 cv_positive_time_period_milliseconds raw.interlock_wait_time
  return {
    pin_a := pinA
    pin_b := pinB
    h_bridge_enable_pin := enablePin
    energise_duration_ms := dur
    dc_latch_redo_count := redo
    dc_latch_redo_interval_ms := redoInterval
    energise_power_percent := epow
    hold_power_percent := hpow
    solenoid_type := st
    brake_is_high := brake
    inverted := inv
    using_half_bridge := half
    interlock := raw.interlock
    interlock_wait_time := wait
  }

/-- `validate_dc_latching_solenoid`: for DC_LATCHING, forbid the
half-bridge and require `pin_b`. -/
def validate_dc_latching_solenoid (config : Config) : Except String Config :=
  if config.solenoid_type = .SOLENOID_TYPE_DC_LATCHING then
    if config.using_half_bridge = true then
      .error "DC Latching Solenoid requires a full h-bridge in order to reverse pulse polarity, so it must not use a half-bridge."
    else if config.pin_b = none then
      .error "DC Latching Solenoid requires pin_b to be defined."
    else .ok config
  else .ok config

/-- `validate_pin_b_and_half_bridge_combo`: `using_half_bridge` and
`pin_b` are mutually exclusive and exactly one of them must be chosen. -/
def validate_pin_b_and_half_bridge_combo (config : Config) : Except String Config :=
  if config.using_half_bridge = true ∧ config.pin_b ≠ none then
    .error "Cannot be using a half-bridge AND have pin_b defined. Choose one or the other please."
  else if config.using_half_bridge = false ∧ config.pin_b = none then
    .error "Must be either using a half-bridge OR have pin_b defined. Choose only one of the two please."
  else .ok config

/-- `CONFIG_SCHEMA = cv.All(schema, validate_dc_latching_solenoid,
validate_pin_b_and_half_bridge_combo)`. -/
def CONFIG_SCHEMA (raw : RawConfig) : Except String Config :=
  applySchema raw >>= validate_dc_latching_solenoid >>= validate_pin_b_and_half_bridge_combo

/-- The calls `to_code` emits on the generated `SolenoidSwitch` object
(`cg.add(...)` lines), in order. -/
inductive Call
  | connect_a_pin (id : Nat)
  | connect_b_pin (id : Nat)
  | connect_enable_pin (id : Nat)
  | set_energise_duration_ms (v : Int)
  | set_dc_latch_redo_count (v : Int)
  | set_dc_latch_redo_interval (v : Int)
  | set_energise_power_percent (v : Rat)
  | set_hold_power_percent (v : Rat)
  | set_solenoid_type (t : SolenoidType)
  | set_brake (b : Bool)
  | set_inverted (b : Bool)
  | set_half_bridge (b : Bool)
  | set_interlock (l : List Nat)
  | set_interlock_wait_time (v : Int)
  deriving DecidableEq, Repr

/-- Recognizer for `connect_a_pin` calls. -/
def Call.isConnectA : Call → Bool
  | .connect_a_pin _ => true
  | _ => false

/-- `to_code`: the sequence of configuration calls emitted for an
accepted configuration, in source order. -/
def to_code (config : Config) : List Call :=
  [Call.connect_a_pin config.pin_a]
  ++ (match config.pin_b with
      | some b => [Call.connect_b_pin b]
      | none => [])
  ++ (match config.h_bridge_enable_pin with
      | some e => [Call.connect_enable_pin e]
      | none => [])
  ++ [Call.set_energise_duration_ms config.energise_duration_ms,
      Call.set_dc_latch_redo_count config.dc_latch_redo_count,
      Call.set_dc_latch_redo_interval config.dc_latch_redo_interval_ms,
      Call.set_energise_power_percent config.energise_power_percent,
      Call.set_hold_power_percent config.hold_power_percent,
      Call.set_solenoid_type config.solenoid_type,
      Call.set_brake config.brake_is_high,
      Call.set_inverted config.inverted,
      Call.set_half_bridge config.using_half_bridge]
  ++ (match config.interlock with
      | some l => [Call.set_interlock l, Call.set_interlock_wait_time config.interlock_wait_time]
      | none => [])

/-- Bridge drive directions of the runtime driver. -/
inductive Direction
  | FORWARD
  | REVERSE
  | BRAKE
  | COAST
  deriving DecidableEq, Repr

/-- A segment of the output waveform: direction, duty (percent) and
duration in milliseconds. -/
structure Segment where
  dir : Direction
  duty : Nat
  duration_ms : Nat
  deriving DecidableEq, Repr

/-- Logical switch states of the runtime driver. -/
inductive DriverState
  | OFF
  | TURNING_ON
  | ON
  | TURNING_OFF
  deriving DecidableEq, Repr

/-- Modelled from the spec: the DC_LATCHING turn-on pulse policy of the
runtime `SolenoidSwitch` driver, whose C++ implementation is not part of
the repository sources here. Each attempt drives FORWARD at 100% duty for
`energise_duration_ms`, then releases to COAST; attempts are separated by
`dc_latch_redo_interval_ms` of COAST; all `dc_latch_redo_count` attempts
are executed unconditionally. -/
def dcLatchingPulses : Nat → Nat → Nat → List Segment
  | 0, _, _ => []
  | 1, dur, _ => [⟨.FORWARD, 100, dur⟩]
  | n + 2, dur, interval =>
    ⟨.FORWARD, 100, dur⟩ :: ⟨.COAST, 0, interval⟩ :: dcLatchingPulses (n + 1) dur interval

/-- Modelled from the spec: a `turn_on()` request on a DC_LATCHING driver
produces the pulse waveform and, immediately after the final attempt, the
logical state ON. -/
def dcLatchingTurnOn (count dur interval : Nat) : List Segment × DriverState :=
  (dcLatchingPulses count dur interval, .ON)

/-- The total COAST time between each pair of consecutive FORWARD
segments of a waveform; the accumulator holds the coast time since the
last FORWARD segment seen. -/
def coastGapsAux : List Segment → Option Nat → List Nat
  | [], _ => []
  | s :: rest, acc =>
    if s.dir = .FORWARD then
      match acc with
      | none => coastGapsAux rest (some 0)
      | some g => g :: coastGapsAux rest (some 0)
    else
      match acc with
      | none => coastGapsAux rest none
      | some g => coastGapsAux rest (some (g + (if s.dir = .COAST then s.duration_ms else 0)))

/-- The list of COAST gaps between consecutive FORWARD segments. -/
def forwardGaps (l : List Segment) : List Nat := coastGapsAux l none

end Solenoid

namespace Solenoid

def rawSampleDC : RawConfig :=
  { pin_a := some ⟨1, .float⟩
    pin_b := some ⟨2, .binary⟩
    h_bridge_enable_pin := none
    energise_duration_ms := some 20
    dc_latch_redo_count := none
    dc_latch_redo_interval_ms := none
    energise_power_percent := none
    hold_power_percent := none
    solenoid_type := some "DC_LATCHING"
    brake_is_high := some false
    inverted := none
    using_half_bridge := none
    interlock := none
    interlock_wait_time := none }

def cfgSampleDC : Config :=
  { pin_a := 1
    pin_b := some 2
    h_bridge_enable_pin := none
    energise_duration_ms := 20
    dc_latch_redo_count := 3
    dc_latch_redo_interval_ms := 500
    energise_power_percent := 95
    hold_power_percent := 55
    solenoid_type := .SOLENOID_TYPE_DC_LATCHING
    brake_is_high := false
    inverted := false
    using_half_bridge := false
    interlock := none
    interlock_wait_time := 0 }

end Solenoid

namespace Solenoid

/-- A configuration that selects the half-bridge while also defining
`pin_b`: the combination both cross-field validators reject. -/
def cfgBoth : Config :=
  { cfgSampleDC with using_half_bridge := true }

/-- Inversion of a successful `Except` bind: the first stage succeeded
and its result made the second stage succeed. -/
lemma except_bind_ok {α β : Type} {m : Except String α} {g : α → Except String β}
    {out : β} (h : (m >>= g) = .ok out) :
    ∃ mid, m = .ok mid ∧ g mid = .ok out := by
  cases m with
  | error msg => exact absurd h (by simp [Bind.bind, Except.bind])
  | ok mid => exact ⟨mid, rfl, by simpa [Bind.bind, Except.bind] using h⟩

/-- Inversion of a successful `requiredUseId`. -/
lemma requiredUseId_ok_inv {cls : OutputClass} {o : Option OutputRef} {i : Nat}
    (h : requiredUseId cls o = .ok i) :
    ∃ r, o = some r ∧ r.kind.isA cls = true ∧ i = r.id := by
  cases o with
  | none => exact absurd h (by simp [requiredUseId])
  | some r =>
    by_cases hk : r.kind.isA cls
    · refine ⟨r, rfl, hk, ?_⟩
      simp [requiredUseId, hk] at h
      exact h.symm
    · exact absurd h (by simp [requiredUseId, hk])

/-- Inversion of a successful `cv_int_range`. -/
lemma cv_int_range_ok_inv {lo hi x v : Int} (h : cv_int_range lo hi x = .ok v) :
    v = x ∧ lo ≤ x ∧ x ≤ hi := by
  by_cases hc : lo ≤ x ∧ x ≤ hi
  · simp [cv_int_range, hc] at h
    exact ⟨h.symm, hc⟩
  · exact absurd h (by simp [cv_int_range, hc])

/-- Inversion of a successful `required`. -/
lemma required_ok_inv {α β : Type} {f : α → Except String β} {o : Option α} {v : β}
    (h : required f o = .ok v) : ∃ w, o = some w ∧ f w = .ok v := by
  cases o with
  | none => exact absurd h (by simp [required])
  | some w => exact ⟨w, rfl, h⟩

/-- Inversion of a successful `optionalWithDefault`. -/
lemma optionalWithDefault_ok_inv {α β : Type} {d : α} {f : α → Except String β} {o : Option α}
    {v : β} (h : optionalWithDefault d f o = .ok v) :
    (o = none ∧ f d = .ok v) ∨ ∃ w, o = some w ∧ f w = .ok v := by
  cases o with
  | none => exact Or.inl ⟨rfl, h⟩
  | some w => exact Or.inr ⟨w, rfl, h⟩

/-- Inversion of a successful `cv_percentage`. -/
lemma cv_percentage_ok_inv {x v : Rat} (h : cv_percentage x = .ok v) : v = x := by
  unfold cv_percentage at h
  split_ifs at h
  all_goals first
  | exact Except.noConfusion h
  | (injection h with h2; exact h2.symm)

/-- Inversion of a successful `cv_boolean`. -/
lemma cv_boolean_ok_inv {x v : Bool} (h : cv_boolean x = .ok v) : v = x := by
  simpa [cv_boolean] using h.symm

/-- Inversion of a successful `cv_positive_time_period_milliseconds`. -/
lemma cv_ptp_ok_inv {x v : Int} (h : cv_positive_time_period_milliseconds x = .ok v) :
    v = x := by
  unfold cv_positive_time_period_milliseconds at h
  split_ifs at h
  all_goals first
  | exact Except.noConfusion h
  | (injection h with h2; exact h2.symm)

end Solenoid

namespace Solenoid

/-- A successful `validate_dc_latching_solenoid` returns the config
unchanged and, for DC_LATCHING, certifies no half-bridge and a `pin_b`. -/
lemma validate_dc_latching_ok_inv {a b : Config}
    (h : validate_dc_latching_solenoid a = .ok b) :
    b = a ∧ (a.solenoid_type = .SOLENOID_TYPE_DC_LATCHING →
      a.using_half_bridge = false ∧ a.pin_b ≠ none) := by
  unfold validate_dc_latching_solenoid at h
  by_cases h1 : a.solenoid_type = .SOLENOID_TYPE_DC_LATCHING
  · rw [if_pos h1] at h
    by_cases h2 : a.using_half_bridge = true
    · rw [if_pos h2] at h
      exact Except.noConfusion h
    · rw [if_neg h2] at h
      by_cases h3 : a.pin_b = none
      · rw [if_pos h3] at h
        exact Except.noConfusion h
      · rw [if_neg h3] at h
        injection h with h4
        exact ⟨h4.symm, fun _ => ⟨by simpa using h2, h3⟩⟩
  · rw [if_neg h1] at h
    injection h with h4
    exact ⟨h4.symm, fun ht => absurd ht h1⟩

/-- A successful `validate_pin_b_and_half_bridge_combo` returns the
config unchanged and certifies that exactly one of the half-bridge flag
and `pin_b` is chosen. -/
lemma validate_combo_ok_inv {a b : Config}
    (h : validate_pin_b_and_half_bridge_combo a = .ok b) :
    b = a ∧ ((a.using_half_bridge = true ∧ a.pin_b = none) ∨
      (a.using_half_bridge = false ∧ a.pin_b ≠ none)) := by
  unfold validate_pin_b_and_half_bridge_combo at h
  by_cases h1 : a.using_half_bridge = true ∧ a.pin_b ≠ none
  · rw [if_pos h1] at h
    exact Except.noConfusion h
  · rw [if_neg h1] at h
    by_cases h2 : a.using_half_bridge = false ∧ a.pin_b = none
    · rw [if_pos h2] at h
      exact Except.noConfusion h
    · rw [if_neg h2] at h
      injection h with h4
      refine ⟨h4.symm, ?_⟩
      cases hu : a.using_half_bridge with
      | true =>
        left
        refine ⟨rfl, ?_⟩
        by_cases hb : a.pin_b = none
        · exact hb
        · exact absurd ⟨hu, hb⟩ h1
      | false =>
        right
        refine ⟨rfl, ?_⟩
        intro hb
        exact h2 ⟨hu, hb⟩

/-- Everything a successful run of the schema part of `CONFIG_SCHEMA`
guarantees about the raw input and the resolved configuration. -/
lemma applySchema_ok_inv {raw : RawConfig} {c : Config} (h : applySchema raw = .ok c) :
    (∃ r, raw.pin_a = some r ∧ r.kind.isA .FloatOutput = true ∧ c.pin_a = r.id)
    ∧ (∃ v, raw.energise_duration_ms = some v ∧ 10 ≤ v ∧ v ≤ 3000 ∧
        c.energise_duration_ms = v)
    ∧ (1 ≤ c.dc_latch_redo_count ∧ c.dc_latch_redo_count ≤ 5)
    ∧ (500 ≤ c.dc_latch_redo_interval_ms ∧ c.dc_latch_redo_interval_ms ≤ 3000)
    ∧ (raw.dc_latch_redo_count = none → c.dc_latch_redo_count = 3)
    ∧ (raw.dc_latch_redo_interval_ms = none → c.dc_latch_redo_interval_ms = 500)
    ∧ (raw.energise_power_percent = none → c.energise_power_percent = 95)
    ∧ (raw.hold_power_percent = none → c.hold_power_percent = 55)
    ∧ (raw.interlock_wait_time = none → c.interlock_wait_time = 0)
    ∧ (raw.inverted = none → c.inverted = false)
    ∧ (raw.using_half_bridge = none → c.using_half_bridge = false) := by
  unfold applySchema at h
  obtain ⟨pinA, hpa, h⟩ := except_bind_ok h
  obtain ⟨pinB, hpb, h⟩ := except_bind_ok h
  obtain ⟨enablePin, hen, h⟩ := except_bind_ok h
  obtain ⟨dur, hdur, h⟩ := except_bind_ok h
  obtain ⟨redo, hredo, h⟩ := except_bind_ok h
  obtain ⟨redoInterval, hri, h⟩ := except_bind_ok h
  obtain ⟨epow, hep, h⟩ := except_bind_ok h
  obtain ⟨hpow, hhp, h⟩ := except_bind_ok h
  obtain ⟨st, hst, h⟩ := except_bind_ok h
  obtain ⟨brake, hbr, h⟩ := except_bind_ok h
  obtain ⟨inv, hinv, h⟩ := except_bind_ok h
  obtain ⟨half, hhalf, h⟩ := except_bind_ok h
  obtain ⟨wait, hwait, h⟩ := except_bind_ok h
  have hc : c = {
      pin_a := pinA, pin_b := pinB, h_bridge_enable_pin := enablePin,
      energise_duration_ms := dur, dc_latch_redo_count := redo,
      dc_latch_redo_interval_ms := redoInterval, energise_power_percent := epow,
      hold_power_percent := hpow, solenoid_type := st, brake_is_high := brake,
      inverted := inv, using_half_bridge := half, interlock := raw.interlock,
      interlock_wait_time := wait } := by
    have h5 := h
    simp only [pure, Except.pure] at h5
    injection h5 with h6
    exact h6.symm
  subst hc
  refine ⟨?_, ?_, ?_, ?_, ?_, ?_, ?_, ?_, ?_, ?_, ?_⟩
  · obtain ⟨r, hr, hk, hid⟩ := requiredUseId_ok_inv hpa
    exact ⟨r, hr, hk, hid⟩
  · obtain ⟨w, hw, hfw⟩ := required_ok_inv hdur
    obtain ⟨hveq, hlo, hhi⟩ := cv_int_range_ok_inv hfw
    exact ⟨w, hw, hlo, hhi, hveq⟩
  · rcases optionalWithDefault_ok_inv hredo with ⟨-, hfd⟩ | ⟨w, -, hfw⟩
    · obtain ⟨hveq, -, -⟩ := cv_int_range_ok_inv hfd
      simp only [hveq]
      exact ⟨by norm_num, by norm_num⟩
    · obtain ⟨hveq, hlo, hhi⟩ := cv_int_range_ok_inv hfw
      exact ⟨hveq ▸ hlo, hveq ▸ hhi⟩
  · rcases optionalWithDefault_ok_inv hri with ⟨-, hfd⟩ | ⟨w, -, hfw⟩
    · obtain ⟨hveq, -, -⟩ := cv_int_range_ok_inv hfd
      simp only [hveq]
      exact ⟨by norm_num, by norm_num⟩
    · obtain ⟨hveq, hlo, hhi⟩ := cv_int_range_ok_inv hfw
      exact ⟨hveq ▸ hlo, hveq ▸ hhi⟩
  · intro hn
    rcases optionalWithDefault_ok_inv hredo with ⟨-, hfd⟩ | ⟨w, hw, -⟩
    · exact (cv_int_range_ok_inv hfd).1
    · exact absurd (hn ▸ hw) (by simp)
  · intro hn
    rcases optionalWithDefault_ok_inv hri with ⟨-, hfd⟩ | ⟨w, hw, -⟩
    · exact (cv_int_range_ok_inv hfd).1
    · exact absurd (hn ▸ hw) (by simp)
  · intro hn
    rcases optionalWithDefault_ok_inv hep with ⟨-, hfd⟩ | ⟨w, hw, -⟩
    · exact cv_percentage_ok_inv hfd
    · exact absurd (hn ▸ hw) (by simp)
  · intro hn
    rcases optionalWithDefault_ok_inv hhp with ⟨-, hfd⟩ | ⟨w, hw, -⟩
    · exact cv_percentage_ok_inv hfd
    · exact absurd (hn ▸ hw) (by simp)
  · intro hn
    rcases optionalWithDefault_ok_inv hwait with ⟨-, hfd⟩ | ⟨w, hw, -⟩
    · exact cv_ptp_ok_inv hfd
    · exact absurd (hn ▸ hw) (by simp)
  · intro hn
    rcases optionalWithDefault_ok_inv hinv with ⟨-, hfd⟩ | ⟨w, hw, -⟩
    · exact cv_boolean_ok_inv hfd
    · exact absurd (hn ▸ hw) (by simp)
  · intro hn
    rcases optionalWithDefault_ok_inv hhalf with ⟨-, hfd⟩ | ⟨w, hw, -⟩
    · exact cv_boolean_ok_inv hfd
    · exact absurd (hn ▸ hw) (by simp)

/-- Everything a successful run of the full `CONFIG_SCHEMA` pipeline
guarantees. -/
lemma CONFIG_SCHEMA_ok_inv {raw : RawConfig} {c : Config} (h : CONFIG_SCHEMA raw = .ok c) :
    applySchema raw = .ok c
    ∧ (c.solenoid_type = .SOLENOID_TYPE_DC_LATCHING →
        c.using_half_bridge = false ∧ c.pin_b ≠ none)
    ∧ ((c.using_half_bridge = true ∧ c.pin_b = none) ∨
        (c.using_half_bridge = false ∧ c.pin_b ≠ none)) := by
  unfold CONFIG_SCHEMA at h
  obtain ⟨b, hb, hcomb⟩ := except_bind_ok h
  obtain ⟨a, ha, hdc⟩ := except_bind_ok hb
  obtain ⟨hba, hdcprop⟩ := validate_dc_latching_ok_inv hdc
  obtain ⟨hcb, hcombprop⟩ := validate_combo_ok_inv hcomb
  subst hba
  subst hcb
  exact ⟨ha, hdcprop, hcombprop⟩

end Solenoid

namespace Solenoid

/-- C1: for every configuration with solenoid_type = DC_LATCHING,
validation fails when `using_half_bridge` is true or `pin_b` is absent;
a DC_LATCHING configuration passes the DC-latching check exactly when it
has a second bridge pin and does not use a half-bridge, and a DC_LATCHING
configuration accepted by the full pipeline has those properties. -/
theorem dc_latching_validation_c1 :
    (∀ c : Config, c.solenoid_type = .SOLENOID_TYPE_DC_LATCHING →
      ((∃ c', validate_dc_latching_solenoid c = .ok c') ↔
        (c.using_half_bridge = false ∧ c.pin_b.isSome = true)))
    ∧ (∀ raw c, CONFIG_SCHEMA raw = .ok c →
        c.solenoid_type = .SOLENOID_TYPE_DC_LATCHING →
        c.using_half_bridge = false ∧ c.pin_b.isSome = true) := by
  constructor
  · intro c ht
    constructor
    · rintro ⟨c', hc'⟩
      obtain ⟨-, hprop⟩ := validate_dc_latching_ok_inv hc'
      obtain ⟨hh, hb⟩ := hprop ht
      exact ⟨hh, Option.ne_none_iff_isSome.mp hb⟩
    · rintro ⟨hh, hs⟩
      have hb : c.pin_b ≠ none := Option.ne_none_iff_isSome.mpr hs
      refine ⟨c, ?_⟩
      unfold validate_dc_latching_solenoid
      rw [if_pos ht, if_neg (by simp [hh]), if_neg hb]
  · intro raw c h ht
    obtain ⟨-, hdc, -⟩ := CONFIG_SCHEMA_ok_inv h
    obtain ⟨hh, hb⟩ := hdc ht
    exact ⟨hh, Option.ne_none_iff_isSome.mp hb⟩

/-- C1 witness: a concrete DC_LATCHING configuration accepted by the
pipeline, with no half-bridge and a `pin_b`. -/
theorem dc_latching_validation_c1_witness :
    cfgSampleDC.using_half_bridge = false ∧ cfgSampleDC.pin_b.isSome = true :=
  dc_latching_validation_c1.2 rawSampleDC cfgSampleDC (by decide) rfl

/-- C2: every configuration accepted by the full pipeline has exactly one
of `using_half_bridge = true` and `pin_b` present, and a configuration
with both or with neither is rejected by the combo validator. -/
theorem exactly_one_bridge_mode_c2 :
    (∀ raw c, CONFIG_SCHEMA raw = .ok c →
      (c.using_half_bridge = true ∧ c.pin_b = none) ∨
        (c.using_half_bridge = false ∧ c.pin_b ≠ none))
    ∧ (∀ c : Config, ((c.using_half_bridge = true ∧ c.pin_b ≠ none) ∨
        (c.using_half_bridge = false ∧ c.pin_b = none)) →
        ∀ c', validate_pin_b_and_half_bridge_combo c ≠ .ok c') := by
  constructor
  · intro raw c h
    exact (CONFIG_SCHEMA_ok_inv h).2.2
  · intro c hbad c' hok
    obtain ⟨-, hgood⟩ := validate_combo_ok_inv hok
    rcases hbad with ⟨h1, h2⟩ | ⟨h1, h2⟩ <;>
      rcases hgood with ⟨g1, g2⟩ | ⟨g1, g2⟩
    · exact h2 g2
    · rw [h1] at g1
      exact Bool.noConfusion g1
    · rw [h1] at g1
      exact Bool.noConfusion g1
    · exact g2 h2

/-- C2 witness: the accepted sample satisfies the exactly-one property,
and the configuration with both a half-bridge and a `pin_b` is
rejected. -/
theorem exactly_one_bridge_mode_c2_witness :
    ((cfgSampleDC.using_half_bridge = true ∧ cfgSampleDC.pin_b = none) ∨
      (cfgSampleDC.using_half_bridge = false ∧ cfgSampleDC.pin_b ≠ none))
    ∧ validate_pin_b_and_half_bridge_combo cfgBoth ≠ .ok cfgBoth :=
  ⟨exactly_one_bridge_mode_c2.1 rawSampleDC cfgSampleDC (by decide),
   exactly_one_bridge_mode_c2.2 cfgBoth (Or.inl ⟨rfl, by decide⟩) cfgBoth⟩

/-- C3: with dc_latch_redo_count = 3, energise_duration_ms = 20 and
dc_latch_redo_interval_ms = 500, a single turn_on request produces
exactly 3 FORWARD pulses of 20 ms at 100% duty, the two gaps between
consecutive pulses are 500 ms of COAST, the last segment is the final
FORWARD pulse, and the driver state immediately afterwards is ON. -/
theorem dc_latching_pulse_trace_c3 :
    ((dcLatchingTurnOn 3 20 500).1.countP
        (fun s => decide (s.dir = Direction.FORWARD)) = 3)
    ∧ (∀ s ∈ (dcLatchingTurnOn 3 20 500).1,
        s.dir = Direction.FORWARD → s.duration_ms = 20 ∧ s.duty = 100)
    ∧ (∀ s ∈ (dcLatchingTurnOn 3 20 500).1,
        s.dir = Direction.FORWARD ∨ s.dir = Direction.COAST)
    ∧ forwardGaps (dcLatchingTurnOn 3 20 500).1 = [500, 500]
    ∧ (∀ g ∈ forwardGaps (dcLatchingTurnOn 3 20 500).1, 500 ≤ g)
    ∧ (dcLatchingTurnOn 3 20 500).1.getLast? = some ⟨Direction.FORWARD, 100, 20⟩
    ∧ (dcLatchingTurnOn 3 20 500).2 = DriverState.ON := by decide

end Solenoid

namespace Solenoid

/-- C4: the `energise_duration_ms` validator accepts a supplied value
exactly when it lies in the closed range 10 to 3000, rejects an omitted
value (the key is required, with no default), and every configuration
accepted by the pipeline supplied an in-range value that is kept
unchanged. -/
theorem energise_duration_validation_c4 :
    (∀ v : Int, (∃ w, required (cv_int_range 10 3000) (some v) = .ok w) ↔
      (10 ≤ v ∧ v ≤ 3000))
    ∧ required (cv_int_range 10 3000) (none : Option Int) =
        .error "required key not provided"
    ∧ (∀ raw c, CONFIG_SCHEMA raw = .ok c →
        ∃ v, raw.energise_duration_ms = some v ∧ 10 ≤ v ∧ v ≤ 3000 ∧
          c.energise_duration_ms = v) := by
  refine ⟨?_, rfl, ?_⟩
  · intro v
    constructor
    · rintro ⟨w, hw⟩
      exact (cv_int_range_ok_inv hw).2
    · intro hr
      exact ⟨v, by simp [required, cv_int_range, hr.1, hr.2]⟩
  · intro raw c h
    have hs := (CONFIG_SCHEMA_ok_inv h).1
    exact (applySchema_ok_inv hs).2.1

/-- C4 witness: the sample configuration supplied `energise_duration_ms`
in range and it is kept unchanged. -/
theorem energise_duration_validation_c4_witness :
    ∃ v, rawSampleDC.energise_duration_ms = some v ∧ 10 ≤ v ∧ v ≤ 3000 ∧
      cfgSampleDC.energise_duration_ms = v :=
  energise_duration_validation_c4.2.2 rawSampleDC cfgSampleDC (by decide)

/-- C5: the `dc_latch_redo_count` validator accepts a supplied value
exactly when it lies in 1..5, the `dc_latch_redo_interval_ms` validator
exactly when it lies in 500..3000, and every accepted configuration has
both resolved values inside those ranges. -/
theorem dc_latch_ranges_c5 :
    (∀ v : Int, (∃ w, optionalWithDefault 3 (cv_int_range 1 5) (some v) = .ok w) ↔
      (1 ≤ v ∧ v ≤ 5))
    ∧ (∀ v : Int,
        (∃ w, optionalWithDefault 500 (cv_int_range 500 3000) (some v) = .ok w) ↔
          (500 ≤ v ∧ v ≤ 3000))
    ∧ (∀ raw c, CONFIG_SCHEMA raw = .ok c →
        1 ≤ c.dc_latch_redo_count ∧ c.dc_latch_redo_count ≤ 5 ∧
          500 ≤ c.dc_latch_redo_interval_ms ∧ c.dc_latch_redo_interval_ms ≤ 3000) := by
  refine ⟨?_, ?_, ?_⟩
  · intro v
    constructor
    · rintro ⟨w, hw⟩
      exact (cv_int_range_ok_inv hw).2
    · intro hr
      exact ⟨v, by simp [optionalWithDefault, cv_int_range, hr.1, hr.2]⟩
  · intro v
    constructor
    · rintro ⟨w, hw⟩
      exact (cv_int_range_ok_inv hw).2
    · intro hr
      exact ⟨v, by simp [optionalWithDefault, cv_int_range, hr.1, hr.2]⟩
  · intro raw c h
    have hs := (CONFIG_SCHEMA_ok_inv h).1
    have hi := applySchema_ok_inv hs
    exact ⟨hi.2.2.1.1, hi.2.2.1.2, hi.2.2.2.1.1, hi.2.2.2.1.2⟩

/-- C5 witness: the sample accepted configuration has both resolved
values in range. -/
theorem dc_latch_ranges_c5_witness :
    1 ≤ cfgSampleDC.dc_latch_redo_count ∧ cfgSampleDC.dc_latch_redo_count ≤ 5 ∧
      500 ≤ cfgSampleDC.dc_latch_redo_interval_ms ∧
        cfgSampleDC.dc_latch_redo_interval_ms ≤ 3000 :=
  dc_latch_ranges_c5.2.2 rawSampleDC cfgSampleDC (by decide)

/-- C6: whenever the corresponding key is absent, validation fills in the
documented defaults: dc_latch_redo_count = 3, dc_latch_redo_interval_ms =
500, energise_power_percent = 95%, hold_power_percent = 55%,
interlock_wait_time = 0 ms, inverted = false, using_half_bridge =
false. -/
theorem schema_defaults_c6 :
    ∀ raw c, CONFIG_SCHEMA raw = .ok c →
      (raw.dc_latch_redo_count = none → c.dc_latch_redo_count = 3)
      ∧ (raw.dc_latch_redo_interval_ms = none → c.dc_latch_redo_interval_ms = 500)
      ∧ (raw.energise_power_percent = none → c.energise_power_percent = 95)
      ∧ (raw.hold_power_percent = none → c.hold_power_percent = 55)
      ∧ (raw.interlock_wait_time = none → c.interlock_wait_time = 0)
      ∧ (raw.inverted = none → c.inverted = false)
      ∧ (raw.using_half_bridge = none → c.using_half_bridge = false) := by
  intro raw c h
  have hs := (CONFIG_SCHEMA_ok_inv h).1
  have hi := applySchema_ok_inv hs
  exact ⟨hi.2.2.2.2.1, hi.2.2.2.2.2.1, hi.2.2.2.2.2.2.1, hi.2.2.2.2.2.2.2.1,
    hi.2.2.2.2.2.2.2.2.1, hi.2.2.2.2.2.2.2.2.2.1, hi.2.2.2.2.2.2.2.2.2.2⟩

/-- C6 witness: the sample raw configuration omits every one of these
keys and the accepted configuration carries all of the defaults. -/
theorem schema_defaults_c6_witness :
    cfgSampleDC.dc_latch_redo_count = 3 ∧ cfgSampleDC.dc_latch_redo_interval_ms = 500 ∧
      cfgSampleDC.energise_power_percent = 95 ∧ cfgSampleDC.hold_power_percent = 55 ∧
        cfgSampleDC.interlock_wait_time = 0 ∧ cfgSampleDC.inverted = false ∧
          cfgSampleDC.using_half_bridge = false :=
  have h := schema_defaults_c6 rawSampleDC cfgSampleDC (by decide)
  ⟨h.1 rfl, h.2.1 rfl, h.2.2.1 rfl, h.2.2.2.1 rfl, h.2.2.2.2.1 rfl,
    h.2.2.2.2.2.1 rfl, h.2.2.2.2.2.2 rfl⟩

end Solenoid

namespace Solenoid

/-- C7: `pin_a` is mandatory and must be a modulated (float) output;
`pin_b` and the bridge enable pin share the optional binary-output
validator, which accepts an absent key and otherwise requires an output
usable as a binary output; and every accepted configuration supplied a
`pin_a` that is a float output. -/
theorem pin_schema_c7 :
    (∀ o : Option OutputRef, (∃ i, requiredUseId .FloatOutput o = .ok i) ↔
      (∃ r, o = some r ∧ r.kind.isA .FloatOutput = true))
    ∧ (∀ o : Option OutputRef, (∃ p, optionalUseId .BinaryOutput o = .ok p) ↔
      (o = none ∨ ∃ r, o = some r ∧ r.kind.isA .BinaryOutput = true))
    ∧ (∀ raw c, CONFIG_SCHEMA raw = .ok c →
        ∃ r, raw.pin_a = some r ∧ r.kind.isA .FloatOutput = true ∧ c.pin_a = r.id) := by
  refine ⟨?_, ?_, ?_⟩
  · intro o
    constructor
    · rintro ⟨i, hi⟩
      obtain ⟨r, hr, hk, -⟩ := requiredUseId_ok_inv hi
      exact ⟨r, hr, hk⟩
    · rintro ⟨r, hr, hk⟩
      exact ⟨r.id, by simp [hr, requiredUseId, hk]⟩
  · intro o
    cases o with
    | none => simp [optionalUseId]
    | some r =>
      by_cases hk : r.kind.isA .BinaryOutput
      · simp [optionalUseId, hk]
      · simp [optionalUseId, hk]
  · intro raw c h
    have hs := (CONFIG_SCHEMA_ok_inv h).1
    exact (applySchema_ok_inv hs).1

/-- C7 witness: the sample configuration supplies a float-output
`pin_a`. -/
theorem pin_schema_c7_witness :
    ∃ r, rawSampleDC.pin_a = some r ∧ r.kind.isA .FloatOutput = true ∧
      cfgSampleDC.pin_a = r.id :=
  pin_schema_c7.2.2 rawSampleDC cfgSampleDC (by decide)

/-- C8: the solenoid_type validator accepts a value exactly when it is
one of the three option strings DC_LATCHING, AC, DC (after the
upper-casing the validator performs), maps each to its enum variant, and
rejects an omitted key. -/
theorem solenoid_type_enum_c8 :
    (∀ o : Option String, (∃ t, cv_enum_solenoid o = .ok t) ↔
      (∃ s, o = some s ∧ (pyUpper s = "DC_LATCHING" ∨ pyUpper s = "AC" ∨
        pyUpper s = "DC")))
    ∧ cv_enum_solenoid (some "DC_LATCHING") = .ok .SOLENOID_TYPE_DC_LATCHING
    ∧ cv_enum_solenoid (some "AC") = .ok .SOLENOID_TYPE_AC
    ∧ cv_enum_solenoid (some "DC") = .ok .SOLENOID_TYPE_DC
    ∧ cv_enum_solenoid none = .error "required key not provided" := by
  refine ⟨?_, by decide, by decide, by decide, rfl⟩
  intro o
  cases o with
  | none => simp [cv_enum_solenoid]
  | some s =>
    simp only [cv_enum_solenoid, SOLENOID_TYPE_OPTIONS, List.lookup]
    by_cases h1 : pyUpper s = "DC_LATCHING"
    · have e1 : (pyUpper s == "DC_LATCHING") = true := beq_iff_eq.mpr h1
      simp [e1, h1]
    · have e1 : (pyUpper s == "DC_LATCHING") = false := beq_eq_false_iff_ne.mpr h1
      by_cases h2 : pyUpper s = "AC"
      · have e2 : (pyUpper s == "AC") = true := beq_iff_eq.mpr h2
        simp [e1, e2, h1, h2]
      · have e2 : (pyUpper s == "AC") = false := beq_eq_false_iff_ne.mpr h2
        by_cases h3 : pyUpper s = "DC"
        · have e3 : (pyUpper s == "DC") = true := beq_iff_eq.mpr h3
          simp [e1, e2, e3, h1, h2, h3]
        · have e3 : (pyUpper s == "DC") = false := beq_eq_false_iff_ne.mpr h3
          simp [e1, e2, e3, h1, h2, h3]

end Solenoid

namespace Solenoid

/-- C9: code generation emits `set_interlock_wait_time` (and
`set_interlock`) exactly when the interlock option is present in the
configuration; without an interlock list, a supplied
`interlock_wait_time` is never applied to the driver. -/
theorem interlock_wait_time_gating_c9 :
    ∀ c : Config,
      ((∃ w, Call.set_interlock_wait_time w ∈ to_code c) ↔ c.interlock.isSome = true)
      ∧ ((∃ l, Call.set_interlock l ∈ to_code c) ↔ c.interlock.isSome = true) := by
  intro c
  obtain ⟨pa, pb, en, dur, rc, ri, ep, hp, st, br, inv, half, il, wt⟩ := c
  cases pb <;> cases en <;> cases il <;> simp [to_code]

/-- C10: code generation always connects exactly one A pin, connects the
B pin exactly when `pin_b` is present and the enable pin exactly when the
bridge enable pin is present; consequently every DC_LATCHING
configuration accepted by the pipeline gets its B pin connected. -/
theorem to_code_pin_connections_c10 :
    (∀ c : Config,
      (to_code c).countP Call.isConnectA = 1
      ∧ ((∃ i, Call.connect_b_pin i ∈ to_code c) ↔ c.pin_b.isSome = true)
      ∧ ((∃ i, Call.connect_enable_pin i ∈ to_code c) ↔
          c.h_bridge_enable_pin.isSome = true))
    ∧ (∀ raw c, CONFIG_SCHEMA raw = .ok c →
        c.solenoid_type = .SOLENOID_TYPE_DC_LATCHING →
        ∃ i, Call.connect_b_pin i ∈ to_code c) := by
  have hmain : ∀ c : Config,
      (to_code c).countP Call.isConnectA = 1
      ∧ ((∃ i, Call.connect_b_pin i ∈ to_code c) ↔ c.pin_b.isSome = true)
      ∧ ((∃ i, Call.connect_enable_pin i ∈ to_code c) ↔
          c.h_bridge_enable_pin.isSome = true) := by
    intro c
    obtain ⟨pa, pb, en, dur, rc, ri, ep, hp, st, br, inv, half, il, wt⟩ := c
    cases pb <;> cases en <;> cases il <;>
      simp [to_code, Call.isConnectA, List.countP_cons, List.countP_append]
  refine ⟨hmain, ?_⟩
  intro raw c h ht
  obtain ⟨-, hdc, -⟩ := CONFIG_SCHEMA_ok_inv h
  obtain ⟨-, hb⟩ := hdc ht
  exact (hmain c).2.1.mpr (Option.ne_none_iff_isSome.mp hb)

/-- C10 witness: the accepted DC_LATCHING sample configuration gets a
`connect_b_pin` call. -/
theorem to_code_pin_connections_c10_witness :
    ∃ i, Call.connect_b_pin i ∈ to_code cfgSampleDC :=
  to_code_pin_connections_c10.2 rawSampleDC cfgSampleDC (by decide) rfl

end Solenoid
